import Mathlib

/-!
Verification of the grocery-tracker price extractor (`src/scraper.py`) and
purchase predictor (`src/database.py`), as a shallow embedding in Lean.

Prices are modelled as rationals, timestamps as integer day numbers, and the
rendered page as an oracle from CSS-selector strings to the inner text of the
first matching element (`none` when no element matches), together with the raw
page content used for the textual sale-word check.  The page fetch
(`page.goto`, and anything else inside the `with sync_playwright()` block that
can raise) is an explicit input of type `Except String Page`: `.error detail`
stands for an exception whose `str()` is `detail`.
-/

namespace Grocery

/-- Python `sub in s` substring containment, on character lists. -/
def listContainsSub (sub : List Char) : List Char → Bool
  | [] => sub.isEmpty
  | c :: r => List.isPrefixOf sub (c :: r) || listContainsSub sub r

/-- Python `sub in s` substring containment, on strings. -/
def strContainsSub (s sub : String) : Bool :=
  listContainsSub sub.data s.data

/-- Python `s.lower()` (ASCII case), as a character list. -/
def lowerData (s : String) : List Char := s.data.map Char.toLower

/-- Python `s.strip()`. -/
def pyStrip (s : String) : String :=
  ⟨((s.data.dropWhile Char.isWhitespace).reverse.dropWhile Char.isWhitespace).reverse⟩

/-- Result record of one extraction attempt (`PriceInfo` dataclass in
`src/scraper.py`). -/
structure PriceInfo where
  price : Option ℚ
  regular_price : Option ℚ
  on_sale : Bool
  product_name : Option String
  error : Option String
  deriving Repr, DecidableEq

/-- Value of a digit character. -/
def digitVal (c : Char) : ℕ := c.toNat - 48

/-- Numeric value of a digit string, most significant digit first. -/
def natOfDigits (ds : List Char) : ℕ :=
  ds.foldl (fun acc c => acc * 10 + digitVal c) 0

/-- First match of the pattern `\$?([\d,]+\.?\d*)` on a comma-free character
list, converted by Python `float`: scan to the first digit, take the maximal
digit run, then an optional dot followed by a maximal digit run. -/
def firstNumber : List Char → Option ℚ
  | [] => none
  | c :: rest =>
    if c.isDigit then
      let intDs := (c :: rest).takeWhile Char.isDigit
      let rest2 := (c :: rest).dropWhile Char.isDigit
      let fracDs :=
        match rest2 with
        | '.' :: r => r.takeWhile Char.isDigit
        | _ => []
      some (mkRat (natOfDigits intDs * 10 ^ fracDs.length + natOfDigits fracDs)
        (10 ^ fracDs.length))
    else
      firstNumber rest

/-- `extract_price` from `src/scraper.py`: empty text is falsy and yields
`None`; otherwise commas are removed (`replace(',', '')`) and the first
decimal number of the text is parsed. -/
def extract_price (price_text : String) : Option ℚ :=
  if price_text = "" then none
  else firstNumber (price_text.data.filter (fun c => c ≠ ','))

/-- `is_valid_url` from `src/scraper.py`. -/
def is_valid_url (url : String) : Bool :=
  if url = "" then false
  else
    strContainsSub url "wholefoodsmarket.com" ||
      (strContainsSub url "amazon.com" && listContainsSub "wholefoods".data (lowerData url))

/-- A rendered product page, abstracted to what the scraper observes:
`query sel` is the inner text of the first element matching CSS selector
`sel` (`none` when `query_selector` returns no element), and `content` is
the full page source checked for sale keywords. -/
structure Page where
  query : String → Option String
  content : String

/-- Amazon price selectors tried in order (`price_selectors` in
`scrape_whole_foods_price`). -/
def price_selectors_amazon : List String :=
  [".a-price .a-offscreen",
   "#priceblock_ourprice",
   "#priceblock_dealprice",
   ".a-price-whole",
   "#corePrice_feature_div .a-offscreen",
   "#corePriceDisplay_desktop_feature_div .a-offscreen",
   "span.a-price span.a-offscreen",
   "[data-a-color=\"price\"] .a-offscreen"]

/-- Whole Foods direct-site price selectors tried in order. -/
def price_selectors_wf : List String :=
  ["[data-testid=\"product-price\"]",
   ".price-value",
   ".product-price",
   ".regular-price",
   "[class*=\"price\"]",
   ".w-price"]

/-- Amazon sale-indicator selectors tried in order. -/
def sale_selectors_amazon : List String :=
  [".a-text-price .a-offscreen",
   "#priceblock_saleprice",
   ".savingsPercentage",
   "[data-a-strike=\"true\"]"]

/-- Whole Foods direct-site sale-indicator selectors tried in order. -/
def sale_selectors_wf : List String :=
  ["[data-testid=\"sale-price\"]",
   ".sale-price",
   ".promo-price",
   "[class*=\"sale\"]",
   ".was-price"]

/-- Selector used to look up the original/regular price once a sale
indicator has matched. -/
def was_price_selector : String := ".was-price, .original-price, [class*=\"regular\"]"

/-- Selector for strikethrough elements in the page-content double check. -/
def strike_selector : String := "s, strike, del, [style*=\"line-through\"]"

/-- Amazon product-name selector. -/
def name_selector_amazon : String := "#productTitle, #title, h1#title span"

/-- Whole Foods direct-site product-name selector. -/
def name_selector_wf : String := "h1[data-testid=\"product-title\"], h1.product-name, h1"

/-- Error message returned for URLs outside the allowed domains. -/
def invalid_url_msg : String :=
  "Invalid URL. Use a wholefoodsmarket.com or Amazon Whole Foods URL"

/-- Error message returned when no strategy yields a price. -/
def no_price_msg : String :=
  "Could not extract price from page. The page structure may have changed."

/-- The price-selector loop of `scrape_whole_foods_price`: try each selector
in order; when an element is found its text is run through `extract_price`,
and the loop breaks on the first truthy (non-`None`, non-zero) value. -/
def findFirstPrice (page : Page) : List String → Option ℚ
  | [] => none
  | sel :: rest =>
    match page.query sel with
    | some txt =>
      match extract_price txt with
      | some v => if v ≠ 0 then some v else findFirstPrice page rest
      | none => findFirstPrice page rest
    | none => findFirstPrice page rest

/-- The sale-selector loop of `scrape_whole_foods_price`: on the first
selector that matches, set `on_sale` and look the regular price up via
`was_price_selector`. -/
def saleScan (page : Page) : List String → Bool × Option ℚ
  | [] => (false, none)
  | sel :: rest =>
    match page.query sel with
    | some _ => (true, (page.query was_price_selector).bind extract_price)
    | none => saleScan page rest

/-- Lower-cased page content contains one of the sale keywords. -/
def contentHasSaleWord (page : Page) : Bool :=
  let pc := lowerData page.content
  listContainsSub "sale".data pc || listContainsSub "deal".data pc ||
    listContainsSub "save".data pc

/-- The page-content double check: when a sale keyword appears and no sale
selector matched, a strikethrough element turns the sale flag on and its
text is parsed as the regular price. -/
def saleContentCheck (page : Page) (sr : Bool × Option ℚ) : Bool × Option ℚ :=
  if contentHasSaleWord page && !sr.1 then
    match page.query strike_selector with
    | some txt => (true, extract_price txt)
    | none => sr
  else sr

/-- The body of `scrape_whole_foods_price` after a successful page fetch:
product name, price-strategy loop, sale detection, and result assembly. -/
def scrapePage (is_amazon : Bool) (page : Page) : PriceInfo :=
  let product_name :=
    (page.query (if is_amazon then name_selector_amazon else name_selector_wf)).map pyStrip
  let price :=
    findFirstPrice page (if is_amazon then price_selectors_amazon else price_selectors_wf)
  let sr := saleContentCheck page
    (saleScan page (if is_amazon then sale_selectors_amazon else sale_selectors_wf))
  match price with
  | none =>
    { price := none, regular_price := none, on_sale := false,
      product_name := product_name, error := some no_price_msg }
  | some p =>
    { price := some p, regular_price := if sr.1 then sr.2 else some p,
      on_sale := sr.1, product_name := product_name, error := none }

/-- `scrape_whole_foods_price` from `src/scraper.py`.  The second component
counts page fetches (`page.goto` calls): `0` when the URL is rejected before
any network activity, `1` otherwise.  A raised exception during the fetch or
render (`fetch = .error detail`) is caught by the `except` clause and
reported as `"Failed to scrape: <detail>"`. -/
def scrape_whole_foods_price (url : String) (fetch : Except String Page) :
    PriceInfo × ℕ :=
  if !is_valid_url url then
    ({ price := none, regular_price := none, on_sale := false,
       product_name := none, error := some invalid_url_msg }, 0)
  else
    match fetch with
    | .error e =>
      ({ price := none, regular_price := none, on_sale := false,
         product_name := none, error := some ("Failed to scrape: " ++ e) }, 1)
    | .ok page => (scrapePage (strContainsSub url "amazon.com") page, 1)

/-- An input item of `check_all_prices` (the dict keys it reads). -/
structure Item where
  id : ℕ
  name : String
  whole_foods_url : Option String
  deriving Repr, DecidableEq

/-- Python truthiness of `item.get('whole_foods_url')`: present and
non-empty. -/
def hasUrl (it : Item) : Bool :=
  match it.whole_foods_url with
  | some u => u ≠ ""
  | none => false

/-- Observable side effects of the batch loop, in order: one scrape call per
processed item followed by the politeness `time.sleep(2)`. -/
inductive Event where
  | scrapeCall (id : ℕ) (url : String) : Event
  | sleep (seconds : ℕ) : Event
  deriving Repr, DecidableEq

/-- `check_all_prices` from `src/scraper.py`: iterate over the items in
order, scrape every item whose URL is truthy, sleep 2 seconds after each
scrape, collect results keyed by item id.  `fetchFor` gives each item's
fetch outcome; the second component is the event trace. -/
def check_all_prices (fetchFor : ℕ → Except String Page) :
    List Item → List (ℕ × PriceInfo) × List Event
  | [] => ([], [])
  | it :: rest =>
    match it.whole_foods_url with
    | some url =>
      if url ≠ "" then
        let r := (scrape_whole_foods_price url (fetchFor it.id)).1
        let (rs, tr) := check_all_prices fetchFor rest
        ((it.id, r) :: rs, Event.scrapeCall it.id url :: Event.sleep 2 :: tr)
      else check_all_prices fetchFor rest
    | none => check_all_prices fetchFor rest

/-! ### Purchase predictor (`src/database.py`)

Timestamps are integer day numbers (days since the civil epoch 1970-01-01);
the test data uses date-only timestamps, for which the day-difference
`(curr - prev).days` is exact integer subtraction.  Calendar conversion uses
the standard civil-from-days / days-from-civil algorithms, matching
`datetime.fromisoformat` / `timedelta` / `strftime('%Y-%m-%d')` on dates. -/

/-- Day number of a civil date (proleptic Gregorian), `1970-01-01 = 0`. -/
def days_from_civil (y m d : ℤ) : ℤ :=
  let y' := if m ≤ 2 then y - 1 else y
  let era := (if 0 ≤ y' then y' else y' - 399) / 400
  let yoe := y' - era * 400
  let mp := if 2 < m then m - 3 else m + 9
  let doy := (153 * mp + 2) / 5 + d - 1
  let doe := yoe * 365 + yoe / 4 - yoe / 100 + doy
  era * 146097 + doe - 719468

/-- Civil date `(year, month, day)` of a day number. -/
def civil_from_days (z : ℤ) : ℤ × ℤ × ℤ :=
  let z' := z + 719468
  let era := (if 0 ≤ z' then z' else z' - 146096) / 146097
  let doe := z' - era * 146097
  let yoe := (doe - doe / 1460 + doe / 36524 - doe / 146096) / 365
  let y := yoe + era * 400
  let doy := doe - (365 * yoe + yoe / 4 - yoe / 100)
  let mp := (5 * doy + 2) / 153
  let d := doy - (153 * mp + 2) / 5 + 1
  let m := if mp < 10 then mp + 3 else mp - 9
  (if m ≤ 2 then y + 1 else y, m, d)

/-- Decimal digits of a natural number, padded with leading zeros to width
`w` (`strftime` zero padding). -/
def padNat (w n : ℕ) : String :=
  let rec digits (fuel n : ℕ) : List Char :=
    match fuel with
    | 0 => []
    | fuel + 1 =>
      if n = 0 then [] else digits fuel (n / 10) ++ [Char.ofNat (48 + n % 10)]
  let ds := if n = 0 then ['0'] else digits n n
  ⟨List.replicate (w - ds.length) '0' ++ ds⟩

/-- `strftime('%Y-%m-%d')` of a day number. -/
def formatDate (z : ℤ) : String :=
  let c := civil_from_days z
  padNat 4 c.1.toNat ++ "-" ++ padNat 2 c.2.1.toNat ++ "-" ++ padNat 2 c.2.2.toNat

/-- Python `round`: round to nearest, ties to even (banker's rounding),
computed on the exact rational. -/
def pyRound (q : ℚ) : ℤ :=
  let n := q.num
  let d : ℤ := q.den
  let f := n.fdiv d
  let r := n.fmod d
  if 2 * r < d then f
  else if 2 * r > d then f + 1
  else if f % 2 = 0 then f else f + 1

/-- `calculate_frequency` from `src/database.py`, on the item's purchase
timestamps in ascending `purchased_at` order (the SQL `ORDER BY`): needs at
least two purchases, keeps only strictly positive day gaps between
consecutive purchases, and returns `round(mean)` of the kept gaps. -/
def calculate_frequency (purchases : List ℤ) : Option ℤ :=
  if purchases.length < 2 then none
  else
    let intervals := (purchases.zip purchases.tail).filterMap
      (fun pc => let days := pc.2 - pc.1; if 0 < days then some days else none)
    if intervals.isEmpty then none
    else some (pyRound (mkRat intervals.sum intervals.length))

/-- `predict_next_purchase` from `src/database.py`.  `item` is the row of
the `items` table (`none` when the item does not exist) carrying its
optional `target_frequency`; `purchases` are the item's purchase timestamps
ascending, so the SQL `ORDER BY purchased_at DESC LIMIT 1` row is the last
element.  The target frequency is used when truthy, the computed average
otherwise; a falsy frequency gives `None`; the result is the last purchase
plus the frequency in days, formatted `'%Y-%m-%d'`. -/
def predict_next_purchase (item : Option (Option ℤ)) (purchases : List ℤ) :
    Option String :=
  match purchases.getLast? with
  | none => none
  | some last_date =>
    let freq : Option ℤ :=
      match item with
      | some (some t) => if t ≠ 0 then some t else calculate_frequency purchases
      | _ => calculate_frequency purchases
    match freq with
    | none => none
    | some f => if f = 0 then none else some (formatDate (last_date + f))

/-! ### Concrete test fixtures -/

/-- A Whole Foods page showing a price of `$4.99`, a matching `.sale-price`
sale indicator, and no was/original/regular price element. -/
def pageC1 : Page where
  query := fun s =>
    if s = "[data-testid=\"product-price\"]" then some "$4.99"
    else if s = ".sale-price" then some "SALE"
    else none
  content := ""

/-- A Whole Foods page whose only price element reads `$0.00`. -/
def pageC9 : Page where
  query := fun s =>
    if s = "[data-testid=\"product-price\"]" then some "$0.00" else none
  content := ""

/-- A Whole Foods page with a plain `$3.49` price and no sale markers. -/
def pageC10 : Page where
  query := fun s => if s = ".price-value" then some "$3.49" else none
  content := ""

/-- First batch item: allowed-domain URL. -/
def itemA : Item := ⟨1, "Apples", some "https://www.wholefoodsmarket.com/product/apples"⟩

/-- Second batch item: URL outside the allowed domains. -/
def itemB : Item := ⟨2, "Soap", some "https://example.com/soap"⟩

/-- Third batch item: allowed-domain URL. -/
def itemC : Item := ⟨3, "Bananas", some "https://www.wholefoodsmarket.com/product/bananas"⟩

end Grocery

example : Grocery.extract_price "$4.99" = some (mkRat 499 100) := by decide
example : Grocery.extract_price "" = none := by decide
example : Grocery.extract_price "N/A" = none := by decide
example : Grocery.extract_price "$1,234.50" = some (mkRat 123450 100) := by decide
example : Grocery.extract_price "$0.00" = some 0 := by decide
example : Grocery.is_valid_url "https://www.wholefoodsmarket.com/product/x" = true := by decide
example : Grocery.is_valid_url "https://example.com/x" = false := by decide
example : Grocery.is_valid_url "https://www.amazon.com/WholeFoods/dp/1" = true := by decide
example : Grocery.days_from_civil 2024 1 1 = 19723 := by decide
example : Grocery.civil_from_days 19723 = (2024, 1, 1) := by decide
example : Grocery.formatDate 19723 = "2024-01-01" := by decide
example : Grocery.calculate_frequency
    [Grocery.days_from_civil 2024 1 1, Grocery.days_from_civil 2024 1 8,
     Grocery.days_from_civil 2024 1 22] = some 10 := by decide
example : Grocery.predict_next_purchase (some none)
    [Grocery.days_from_civil 2024 1 1, Grocery.days_from_civil 2024 1 8,
     Grocery.days_from_civil 2024 1 22] = some "2024-02-01" := by decide
example : Grocery.calculate_frequency
    [Grocery.days_from_civil 2024 1 1, Grocery.days_from_civil 2024 1 1,
     Grocery.days_from_civil 2024 1 11] = some 10 := by decide
example : Grocery.calculate_frequency [Grocery.days_from_civil 2024 1 1] = none := by decide
example : Grocery.predict_next_purchase (some (some 7)) [Grocery.days_from_civil 2024 3 1]
    = some "2024-03-08" := by decide

namespace Grocery

/-- The interval computation of `calculate_frequency`, rewritten as
filtering the positive consecutive differences. -/
theorem filterMap_gaps (l : List (ℤ × ℤ)) :
    l.filterMap
        (fun pc => let days := pc.2 - pc.1; if 0 < days then some days else none)
      = (l.map fun pc => pc.2 - pc.1).filter (fun d => decide (0 < d)) := by
  induction l with
  | nil => rfl
  | cons a t ih =>
    simp only [List.filterMap_cons, List.map_cons, List.filter_cons]
    by_cases h : 0 < a.2 - a.1
    · simp only [h, if_true, decide_eq_true h, List.cons.injEq, true_and]
      · simpa using ih
    · simp only [h, if_false, decide_eq_false h]
      · simpa using ih

/-- When some sale selector matches, the sale loop stops at the first hit
with the sale flag set and the regular price looked up through
`was_price_selector`. -/
theorem saleScan_hit (page : Page) (sels : List String)
    (h : ∃ sel ∈ sels, (page.query sel).isSome = true) :
    saleScan page sels = (true, (page.query was_price_selector).bind extract_price) := by
  induction sels with
  | nil => simp at h
  | cons s t ih =>
    obtain ⟨sel, hmem, hsome⟩ := h
    rcases List.mem_cons.mp hmem with rfl | hmem
    · cases hq : page.query sel with
      | none => rw [hq] at hsome; simp at hsome
      | some txt => simp [saleScan, hq]
    · cases hq : page.query s with
      | none => simp [saleScan, hq]; exact ih ⟨sel, hmem, hsome⟩
      | some txt => simp [saleScan, hq]

/-- When every matched price element parses to nothing or to zero, no
strategy wins and the price loop yields `none`. -/
theorem findFirstPrice_none (page : Page) (sels : List String)
    (h : ∀ sel ∈ sels, ∀ t, page.query sel = some t →
        extract_price t = none ∨ extract_price t = some 0) :
    findFirstPrice page sels = none := by
  induction sels with
  | nil => rfl
  | cons s rest ih =>
    have hrest : ∀ sel ∈ rest, ∀ t, page.query sel = some t →
        extract_price t = none ∨ extract_price t = some 0 :=
      fun sel hm => h sel (List.mem_cons_of_mem _ hm)
    simp only [findFirstPrice]
    cases hq : page.query s with
    | none => exact ih hrest
    | some t =>
      rcases h s (List.mem_cons_self _ _) t hq with he | he
      · simp only [he]
        exact ih hrest
      · simp only [he, ne_eq, not_true_eq_false, if_false]
        exact ih hrest

/-- The scraper's error on a fetched page is `none` or the could-not-extract
message. -/
theorem scrapePage_error_cases (ia : Bool) (page : Page) :
    (scrapePage ia page).error = none ∨ (scrapePage ia page).error = some no_price_msg := by
  unfold scrapePage
  cases findFirstPrice page (if ia then price_selectors_amazon else price_selectors_wf) with
  | none => right; rfl
  | some p => left; rfl

/-- On an allowed URL the scraper never reports the invalid-URL error. -/
theorem valid_url_error_ne_invalid (url : String) (fetch : Except String Page)
    (h : is_valid_url url = true) :
    (scrape_whole_foods_price url fetch).1.error ≠ some invalid_url_msg := by
  unfold scrape_whole_foods_price
  rw [h]
  cases fetch with
  | error e =>
    simp only [Bool.not_true, Bool.false_eq_true, if_false, ne_eq, Option.some.injEq]
    intro hmsg
    have h1 : List.isPrefixOf "Failed to scrape: ".data invalid_url_msg.data = true := by
      rw [← hmsg, String.data_append]
      exact List.isPrefixOf_iff_prefix.mpr (List.prefix_append _ _)
    exact absurd h1 (by decide)
  | ok page =>
    simp only [Bool.not_true, Bool.false_eq_true, if_false]
    rcases scrapePage_error_cases (strContainsSub url "amazon.com") page with hc | hc
    · rw [hc]; exact fun hy => Option.noConfusion hy
    · rw [hc]
      intro hmsg
      exact absurd (Option.some.inj hmsg) (by decide)

/-- Rejected URLs short-circuit before any network activity. -/
theorem scrape_invalid (url : String) (fetch : Except String Page)
    (h : is_valid_url url = false) :
    scrape_whole_foods_price url fetch =
      ({ price := none, regular_price := none, on_sale := false,
         product_name := none, error := some invalid_url_msg }, 0) := by
  simp [scrape_whole_foods_price, h]

/-! ### Claim theorems -/

/-- C7: price text normalization strips the currency symbol and thousands
separators and parses the first decimal number found: `"$4.99"`, `"4.99/lb"`
and `"$1,234.50"` parse to 4.99, 4.99 and 1234.50, while `""` and `"N/A"`
parse to null without raising. -/
theorem C7_price_text_normalization :
    extract_price "$4.99" = some (mkRat 499 100) ∧
    extract_price "4.99/lb" = some (mkRat 499 100) ∧
    extract_price "$1,234.50" = some (mkRat 123450 100) ∧
    extract_price "" = none ∧
    extract_price "N/A" = none := by decide

/-- C2 counterexample: with purchases 2024-01-01, 2024-01-08, 2024-01-22 and
no target-frequency override, the prediction is not 2024-02-02: Python
`round` rounds the mean gap 10.5 half-to-even, to 10 and not 11. -/
theorem C2_counterexample :
    predict_next_purchase (some none)
        [days_from_civil 2024 1 1, days_from_civil 2024 1 8, days_from_civil 2024 1 22]
      ≠ some "2024-02-02" := by decide

/-- C2 amended: for purchases 2024-01-01, 2024-01-08, 2024-01-22 (gaps 7 and
14, mean 10.5) and no override, the mean is rounded half-to-even to 10 days
and the predicted date is 2024-02-01 (last purchase 2024-01-22 plus 10). -/
theorem C2_predict_rounds_half_even :
    pyRound (mkRat 21 2) = 10 ∧
    calculate_frequency
        [days_from_civil 2024 1 1, days_from_civil 2024 1 8, days_from_civil 2024 1 22]
      = some 10 ∧
    predict_next_purchase (some none)
        [days_from_civil 2024 1 1, days_from_civil 2024 1 8, days_from_civil 2024 1 22]
      = some "2024-02-01" := by decide

/-- C4: with fewer than two timestamps the average interval is null;
otherwise the consecutive day gaps are computed, the non-positive ones
discarded, and the result is the rounded mean of the remaining gaps, or null
when none remain; `[2024-01-01, 2024-01-01, 2024-01-11]` yields 10 and a
single timestamp yields null. -/
theorem C4_average_interval_days (ps : List ℤ) :
    (ps.length < 2 → calculate_frequency ps = none) ∧
    (2 ≤ ps.length →
      ∀ gs, gs = ((ps.zip ps.tail).map fun pc => pc.2 - pc.1).filter (fun d => decide (0 < d)) →
        ((gs = [] → calculate_frequency ps = none) ∧
         (gs ≠ [] → calculate_frequency ps = some (pyRound (mkRat gs.sum gs.length))))) ∧
    calculate_frequency
        [days_from_civil 2024 1 1, days_from_civil 2024 1 1, days_from_civil 2024 1 11]
      = some 10 ∧
    calculate_frequency [days_from_civil 2024 1 1] = none := by
  refine ⟨?_, ?_, by decide, by decide⟩
  · intro h
    simp only [calculate_frequency]
    rw [if_pos h]
  · intro hlen gs hgs
    have hnot : ¬ ps.length < 2 := by omega
    constructor
    · intro hnil
      simp only [calculate_frequency]
      rw [if_neg hnot, filterMap_gaps, ← hgs, hnil]
      rfl
    · intro hne
      simp only [calculate_frequency]
      rw [if_neg hnot, filterMap_gaps, ← hgs]
      rw [if_neg (by simp [List.isEmpty_iff, hne])]

/-- C4 witness: three purchases at days 0, 3 and 10 have gaps 3 and 7 and an
average interval of 5 days. -/
theorem C4_average_interval_days_witness :
    (2 : ℕ) ≤ ([0, 3, 10] : List ℤ).length ∧
    calculate_frequency ([0, 3, 10] : List ℤ) = some 5 := by
  refine ⟨by decide, ?_⟩
  have h := (((C4_average_interval_days [0, 3, 10]).2.1 (by decide)) [3, 7]
    (by decide)).2 (by decide)
  exact h.trans (by decide)

/-- C5: the prediction is null without a purchase record; the effective
frequency is the truthy target-frequency override, else the computed
average; a falsy frequency gives null; otherwise the result is the last
purchase plus the frequency in days, formatted as a calendar date. -/
theorem C5_predict_next_purchase_contract (item : Option (Option ℤ)) (ps : List ℤ)
    (lastd : ℤ) :
    predict_next_purchase item [] = none ∧
    (ps.getLast? = some lastd →
      ((∀ t : ℤ, item = some (some t) → t ≠ 0 →
          predict_next_purchase item ps = some (formatDate (lastd + t))) ∧
       ((item = none ∨ item = some none ∨ item = some (some 0)) →
          ((calculate_frequency ps = none → predict_next_purchase item ps = none) ∧
           (∀ fr : ℤ, calculate_frequency ps = some fr → fr ≠ 0 →
              predict_next_purchase item ps = some (formatDate (lastd + fr))))))) := by
  refine ⟨rfl, fun hlast => ⟨?_, ?_⟩⟩
  · intro t hitem ht
    subst hitem
    simp [predict_next_purchase, hlast, ht]
  · intro hitem
    constructor
    · intro hfreq
      rcases hitem with rfl | rfl | rfl <;> simp [predict_next_purchase, hlast, hfreq]
    · intro fr hfreq hfr
      rcases hitem with rfl | rfl | rfl <;> simp [predict_next_purchase, hlast, hfreq, hfr]

/-- C5 witness: a target frequency of 7 days after a purchase on 2024-03-01
predicts 2024-03-08. -/
theorem C5_predict_next_purchase_contract_witness :
    predict_next_purchase (some (some 7)) [days_from_civil 2024 3 1] = some "2024-03-08" := by
  have h := ((C5_predict_next_purchase_contract (some (some 7)) [days_from_civil 2024 3 1]
      (days_from_civil 2024 3 1)).2 (by decide)).1 7 rfl (by decide)
  exact h.trans (by decide)

/-- C6: a URL outside the allowed domains is answered with the invalid-URL
error, null prices and product name, a false sale flag, and zero page
fetches. -/
theorem C6_invalid_url_no_fetch (url : String) (fetch : Except String Page)
    (h : is_valid_url url = false) :
    scrape_whole_foods_price url fetch =
      ({ price := none, regular_price := none, on_sale := false,
         product_name := none, error := some invalid_url_msg }, 0) :=
  scrape_invalid url fetch h

/-- C6 witness: a URL on an unrelated domain is rejected without a fetch. -/
theorem C6_invalid_url_no_fetch_witness :
    is_valid_url "https://example.com/item/1" = false ∧
    scrape_whole_foods_price "https://example.com/item/1" (Except.error "unreachable") =
      ({ price := none, regular_price := none, on_sale := false,
         product_name := none, error := some invalid_url_msg }, 0) :=
  ⟨by decide, C6_invalid_url_no_fetch "https://example.com/item/1"
    (Except.error "unreachable") (by decide)⟩

/-- C3 counterexample: a transport failure (a navigation timeout) on an
allowed URL is reported with the single catch-all message prefix
`"Failed to scrape: "`, not with the prefix `"fetch failed: "` claimed for
the transport failure class. -/
theorem C3_counterexample :
    (scrape_whole_foods_price "https://www.wholefoodsmarket.com/product/apples"
        (Except.error "Timeout 30000ms exceeded.")).1.error
      = some "Failed to scrape: Timeout 30000ms exceeded." ∧
    List.isPrefixOf "fetch failed: ".data
        "Failed to scrape: Timeout 30000ms exceeded.".data = false := by decide

/-- C3 amended: on an allowed URL the extractor never propagates a raised
exception: every failure during fetch or scraping — transport failures and
timeouts included — is returned as a PriceInfo with null price and
`error = "Failed to scrape: <detail>"`; transport and unexpected failures
share this single prefix and are not distinguishable by it. -/
theorem C3_uniform_scrape_failure (url detail : String)
    (h : is_valid_url url = true) :
    (scrape_whole_foods_price url (Except.error detail)).1 =
      { price := none, regular_price := none, on_sale := false,
        product_name := none, error := some ("Failed to scrape: " ++ detail) } := by
  simp [scrape_whole_foods_price, h]

/-- C3 witness: a connection reset on a valid URL produces the catch-all
failure value. -/
theorem C3_uniform_scrape_failure_witness :
    is_valid_url "https://www.wholefoodsmarket.com/product/kale" = true ∧
    (scrape_whole_foods_price "https://www.wholefoodsmarket.com/product/kale"
        (Except.error "connection reset")).1 =
      { price := none, regular_price := none, on_sale := false,
        product_name := none, error := some ("Failed to scrape: " ++ "connection reset") } :=
  ⟨by decide, C3_uniform_scrape_failure "https://www.wholefoodsmarket.com/product/kale"
    "connection reset" (by decide)⟩

/-- C1 counterexample: on a page where a sale selector matches but no
was/original/regular price element exists, the sale price is extracted and
`onSale` is set, yet `regularPrice` is null — not equal to the price as
claimed. -/
theorem C1_counterexample :
    (scrape_whole_foods_price "https://www.wholefoodsmarket.com/product/sale-apples"
        (Except.ok pageC1)).1.on_sale = true ∧
    (scrape_whole_foods_price "https://www.wholefoodsmarket.com/product/sale-apples"
        (Except.ok pageC1)).1.price = some (mkRat 499 100) ∧
    (scrape_whole_foods_price "https://www.wholefoodsmarket.com/product/sale-apples"
        (Except.ok pageC1)).1.regular_price = none ∧
    (scrape_whole_foods_price "https://www.wholefoodsmarket.com/product/sale-apples"
        (Except.ok pageC1)).1.regular_price ≠
      (scrape_whole_foods_price "https://www.wholefoodsmarket.com/product/sale-apples"
        (Except.ok pageC1)).1.price := by decide

/-- C1 amended: whenever a sale selector matches, the was-price lookup
yields no distinguishable regular price, and a price is extracted, the
result has `onSale = true`, the extracted price, and a null `regularPrice`
(the `regularPrice = price` default applies only when no sale is
detected). -/
theorem C1_sale_without_regular (ia : Bool) (page : Page) (p : ℚ)
    (hsale : ∃ sel ∈ (if ia then sale_selectors_amazon else sale_selectors_wf),
        (page.query sel).isSome = true)
    (hwas : (page.query was_price_selector).bind extract_price = none)
    (hp : findFirstPrice page (if ia then price_selectors_amazon else price_selectors_wf)
        = some p) :
    (scrapePage ia page).on_sale = true ∧
    (scrapePage ia page).price = some p ∧
    (scrapePage ia page).regular_price = none := by
  have hs := saleScan_hit page _ hsale
  simp only [scrapePage, hp, hs, hwas, saleContentCheck, Bool.not_true, Bool.and_false,
    if_false]
  simp

/-- C1 witness: the fixture page with a `$4.99` price, a matching
`.sale-price` selector, and no regular-price element. -/
theorem C1_sale_without_regular_witness :
    (scrapePage false pageC1).on_sale = true ∧
    (scrapePage false pageC1).price = some (mkRat 499 100) ∧
    (scrapePage false pageC1).regular_price = none :=
  C1_sale_without_regular false pageC1 (mkRat 499 100)
    ⟨".sale-price", by decide, by decide⟩ (by decide) (by decide)

/-- C9: `"$0.00"` parses to the non-null price 0.0, but the strategy loop's
truthiness test rejects a zero price — the loop moves on to the remaining
selectors — and when no selector produces a positive price the call returns
the could-not-extract error with a null price. -/
theorem C9_zero_price_never_wins (ia : Bool) (page : Page)
    (h : ∀ sel ∈ (if ia then price_selectors_amazon else price_selectors_wf),
        ∀ t, page.query sel = some t →
          extract_price t = none ∨ extract_price t = some 0) :
    extract_price "$0.00" = some 0 ∧
    (∀ (sel : String) (rest : List String) (t : String), page.query sel = some t →
        extract_price t = some 0 →
        findFirstPrice page (sel :: rest) = findFirstPrice page rest) ∧
    (scrapePage ia page).price = none ∧
    (scrapePage ia page).error = some no_price_msg := by
  have hnone := findFirstPrice_none page _ h
  refine ⟨by decide, ?_, ?_, ?_⟩
  · intro sel rest t hq hz
    simp only [findFirstPrice, hq, hz, ne_eq, not_true_eq_false, if_false]
  · simp only [scrapePage, hnone]
  · simp only [scrapePage, hnone]

/-- C9 witness: the fixture page whose only price element reads `$0.00`
yields no price but the could-not-extract error. -/
theorem C9_zero_price_never_wins_witness :
    (scrapePage false pageC9).price = none ∧
    (scrapePage false pageC9).error = some no_price_msg := by
  have h := C9_zero_price_never_wins false pageC9 ?hyp
  · exact ⟨h.2.2.1, h.2.2.2⟩
  case hyp =>
    intro sel _ t hq
    by_cases hs : sel = "[data-testid=\"product-price\"]"
    · subst hs
      rw [show pageC9.query "[data-testid=\"product-price\"]" = some "$0.00" from rfl] at hq
      obtain rfl : "$0.00" = t := Option.some.inj hq
      right
      decide
    · rw [show pageC9.query sel =
          (if sel = "[data-testid=\"product-price\"]" then some "$0.00" else none) from rfl,
        if_neg hs] at hq
      exact Option.noConfusion hq

/-- C10: on every successful extraction with no sale detected, the returned
`regularPrice` equals the price and in particular is never null. -/
theorem C10_regular_price_non_sale (ia : Bool) (page : Page)
    (he : (scrapePage ia page).error = none)
    (hs : (scrapePage ia page).on_sale = false) :
    (scrapePage ia page).regular_price = (scrapePage ia page).price ∧
    (scrapePage ia page).regular_price ≠ none := by
  cases hp : findFirstPrice page (if ia then price_selectors_amazon else price_selectors_wf) with
  | none =>
    exfalso
    simp only [scrapePage, hp] at he
    exact Option.noConfusion he
  | some p =>
    simp only [scrapePage, hp] at hs ⊢
    rw [hs]
    exact ⟨rfl, fun hy => Option.noConfusion hy⟩

/-- C10 witness: the fixture page with a plain `$3.49` price and no sale
markers reports `regularPrice = price`. -/
theorem C10_regular_price_non_sale_witness :
    (scrapePage false pageC10).regular_price = (scrapePage false pageC10).price ∧
    (scrapePage false pageC10).regular_price ≠ none :=
  C10_regular_price_non_sale false pageC10 (by decide) (by decide)

/-- C8: the batch check walks its items in order, scraping each item with a
truthy URL and sleeping two seconds after each request, so consecutive
requests are separated by a fixed 2-second delay; per-item results are
independent of the other items' outcomes, and for three items of which
exactly one has a URL outside the allowed domains the batch returns three
results of which exactly one carries the invalid-source error, whatever the
other two fetches return. -/
theorem C8_batch_sequential_isolated (f : ℕ → Except String Page) :
    (check_all_prices f [itemA, itemB, itemC]).1 =
      [(1, (scrape_whole_foods_price "https://www.wholefoodsmarket.com/product/apples"
            (f 1)).1),
       (2, { price := none, regular_price := none, on_sale := false,
             product_name := none, error := some invalid_url_msg }),
       (3, (scrape_whole_foods_price "https://www.wholefoodsmarket.com/product/bananas"
            (f 3)).1)] ∧
    (check_all_prices f [itemA, itemB, itemC]).2 =
      [Event.scrapeCall 1 "https://www.wholefoodsmarket.com/product/apples", Event.sleep 2,
       Event.scrapeCall 2 "https://example.com/soap", Event.sleep 2,
       Event.scrapeCall 3 "https://www.wholefoodsmarket.com/product/bananas",
       Event.sleep 2] ∧
    (check_all_prices f [itemA, itemB, itemC]).1.length = 3 ∧
    ((check_all_prices f [itemA, itemB, itemC]).1.filter
        (fun r => decide (r.2.error = some invalid_url_msg))).length = 1 := by
  have hmid := scrape_invalid "https://example.com/soap" (f 2) (by decide)
  have hres : (check_all_prices f [itemA, itemB, itemC]).1 =
      [(1, (scrape_whole_foods_price "https://www.wholefoodsmarket.com/product/apples"
            (f 1)).1),
       (2, { price := none, regular_price := none, on_sale := false,
             product_name := none, error := some invalid_url_msg }),
       (3, (scrape_whole_foods_price "https://www.wholefoodsmarket.com/product/bananas"
            (f 3)).1)] := by
    simp [check_all_prices, itemA, itemB, itemC, hmid]
  have hA := valid_url_error_ne_invalid
    "https://www.wholefoodsmarket.com/product/apples" (f 1) (by decide)
  have hC := valid_url_error_ne_invalid
    "https://www.wholefoodsmarket.com/product/bananas" (f 3) (by decide)
  refine ⟨hres, ?_, ?_, ?_⟩
  · simp [check_all_prices, itemA, itemB, itemC]
  · rw [hres]
    rfl
  · rw [hres]
    simp [List.filter_cons, hA, hC]

end Grocery
